import Mathlib

/-!
Shallow embedding of the escrow program (src/src/processor.rs) and proofs
about its three handlers: InitEscrow, Exchange, Cancel.

Modelling conventions:
* a ledger public key is a natural number (`Pubkey`);
* account balances (token amounts and lamports) are natural numbers, with
  the 64-bit overflow of `checked_add` made explicit via `u64Max`;
* each handler takes, instead of a raw `&[AccountInfo]` slice, a structure
  holding exactly the account attributes the handler reads (the fixed
  account-list shape of the handler);
* the token collaborator and the program-derived-address computation are
  external: they are passed in as parameters (`collabOk` decides whether a
  given sub-call is accepted by the token program, `pdaOf` computes the
  derived address and bump seed from the program id);
* the host commits an invocation atomically, so a handler that fails
  returns only the error: the pre-state is unchanged by construction.
  Each handler also returns the list of collaborator sub-calls it
  attempted, in order, including a final rejected one.
-/

abbrev Pubkey := Nat

/-- Largest value representable in a u64; `checked_add` fails above it. -/
def u64Max : Nat := 2 ^ 64 - 1

/-- The token collaborator's account state, as read by the handlers
(spl_token::state::Account; only the `amount` field is ever used). -/
structure TokenAccount where
  amount : Nat
  deriving DecidableEq

/-- The escrow record, mirroring `state::Escrow` field for field as the
fields are written and read in processor.rs. -/
structure Escrow where
  is_initialized : Bool
  initializer_pubkey : Pubkey
  temp_token_account_pubkey : Pubkey
  initializer_token_to_receive_account_pubkey : Pubkey
  expected_amount : Nat
  deriving DecidableEq

/-- The durable data of the escrow record account, as the codec sees it:
`empty` is a zero-length buffer (the state after a consumed escrow is
closed), `malformed` any other buffer the codec rejects, `wellFormed` a
buffer that decodes to an `Escrow` record. -/
inductive EscrowData where
  | empty
  | malformed
  | wellFormed (e : Escrow)
  deriving DecidableEq

/-- A sub-call issued to the token collaborator (spl_token instruction
builders used by processor.rs): reassigning an account's owner-authority,
transferring an amount, or closing an account toward a beneficiary. Each
carries the authorizing identity (a direct signer or the derived
authority). -/
inductive CollabCall where
  | setAuthority (account newAuthority currentAuthority : Pubkey)
  | transfer (source dest authority : Pubkey) (amount : Nat)
  | closeAccount (account beneficiary authority : Pubkey)
  deriving DecidableEq

/-- Errors the handlers can return: the ProgramError variants and the
EscrowError variants used by processor.rs, plus `collabFailure c`, a
rejection of sub-call `c` propagated verbatim from the collaborator. -/
inductive ProgErr where
  | missingRequiredSignature
  | incorrectProgramId
  | invalidAccountData
  | uninitializedAccount
  | accountAlreadyInitialized
  | notRentExempt
  | expectedAmountMismatch
  | amountOverflow
  | collabFailure (c : CollabCall)
  deriving DecidableEq

/-- Modelled from the spec: the escrow record codec lives in state.rs,
which is not under src/. Per spec section 4.3 the decoder distinguishes
well-formed-uninitialized, well-formed-initialized and malformed data;
Pack::unpack_unchecked rejects a buffer of the wrong size (so both `empty`
and `malformed`) with InvalidAccountData and otherwise yields the record. -/
def Escrow.unpack_unchecked : EscrowData → Except ProgErr Escrow
  | .wellFormed e => .ok e
  | _ => .error .invalidAccountData

/-- Modelled from the spec: Pack::unpack is unpack_unchecked followed by
the is_initialized check, failing with UninitializedAccount on a
well-formed but uninitialized record (spec 4.3: Exchange/Cancel accept
only well-formed-initialized data). -/
def Escrow.unpack (d : EscrowData) : Except ProgErr Escrow :=
  match Escrow.unpack_unchecked d with
  | .error err => .error err
  | .ok e => if e.is_initialized then .ok e else .error .uninitializedAccount

/-- Modelled from the spec: the token collaborator's account codec
(external crate). Decoding absent or undecodable token-account data
fails; `none` stands for any buffer TokenAccount::unpack rejects. -/
def TokenAccount.unpack : Option TokenAccount → Except ProgErr TokenAccount
  | some t => .ok t
  | none => .error .invalidAccountData

/-- The fixed identity of the token collaborator program
(spl_token::id()); an arbitrary distinguished key in the model. -/
def spl_token_id : Pubkey := 1

/-- The account attributes read by process_init_escrow, in account-list
order: the initializer (signer flag and key), the temporary token
account (key, plus owner and data, which the handler never reads), the
token-to-receive account (key and owning program), and the escrow record
account (data and the host's rent-exemption verdict on its balance).
`escrowIsRentExempt` stands for Rent::is_exempt(lamports, data_len),
a host sysvar computation external to the program. -/
structure InitState where
  initializerKey : Pubkey
  initializerIsSigner : Bool
  tempTokenKey : Pubkey
  tempTokenOwner : Pubkey
  tempTokenData : Option TokenAccount
  tokenToReceiveKey : Pubkey
  tokenToReceiveOwner : Pubkey
  escrowData : EscrowData
  escrowIsRentExempt : Bool
  deriving DecidableEq

/-- process_init_escrow (processor.rs lines 39-149), check for check in
source order: signer; receiving-account owner = spl_token id; rent
exemption; unpack_unchecked; already-initialized; then write all four
record fields and issue the set_authority sub-call moving the temporary
account's owner-authority to the derived address, co-signed by the
initializer. In the source the record is packed before the sub-call, but
the host discards all effects of a failed invocation, so a collaborator
rejection yields the error and no state change. -/
def process_init_escrow (pdaOf : Pubkey → Pubkey × Nat) (collabOk : CollabCall → Bool)
    (amount : Nat) (program_id : Pubkey) (s : InitState) :
    Except ProgErr InitState × List CollabCall :=
  if !s.initializerIsSigner then (.error .missingRequiredSignature, [])
  else if s.tokenToReceiveOwner ≠ spl_token_id then (.error .incorrectProgramId, [])
  else if !s.escrowIsRentExempt then (.error .notRentExempt, [])
  else match Escrow.unpack_unchecked s.escrowData with
    | .error err => (.error err, [])
    | .ok escrow_info =>
      if escrow_info.is_initialized then (.error .accountAlreadyInitialized, [])
      else
        let pda := (pdaOf program_id).1
        let owner_change_ix := CollabCall.setAuthority s.tempTokenKey pda s.initializerKey
        if collabOk owner_change_ix then
          (.ok { s with escrowData := EscrowData.wellFormed (Escrow.mk true
                  s.initializerKey s.tempTokenKey s.tokenToReceiveKey amount) },
           [owner_change_ix])
        else (.error (.collabFailure owner_change_ix), [owner_change_ix])

/-- True when a handler result is an error (the host then discards every
effect of the invocation, so the pre-state persists unchanged). -/
def isErr : Except ProgErr α → Bool
  | .error _ => true
  | .ok _ => false

/-- The account attributes read by process_exchange, in account-list
order: the taker (signer flag and key), the taker's Y and X token
accounts (key and token balance), the PDA's temporary X token account
(key, token-account data whose amount is its live balance, and lamports),
the initializer's main account (key and lamports), the initializer's Y
token account (key and token balance), and the escrow record account
(data and lamports). -/
structure ExchangeState where
  takerMainKey : Pubkey
  takerMainIsSigner : Bool
  takerYKey : Pubkey
  takerYBalance : Nat
  takerXKey : Pubkey
  takerXBalance : Nat
  pdaTempXKey : Pubkey
  pdaTempXData : Option TokenAccount
  pdaTempXLamports : Nat
  initializerMainKey : Pubkey
  initializerMainLamports : Nat
  initializerYKey : Pubkey
  initializerYBalance : Nat
  escrowData : EscrowData
  escrowLamports : Nat
  deriving DecidableEq

/-- process_exchange (processor.rs lines 151-312), in source order:
signer check; unpack of the temporary X token account; unpack of the
escrow record (initialized only); the three record-against-supplied
cross-checks; the exact live-balance-versus-declared-amount check; then
three collaborator sub-calls — transfer of the record's expected_amount
from taker Y to initializer Y signed by the taker, transfer of the whole
live temporary balance to taker X authorized by the derived address, and
close of the temporary account crediting its lamports to the
initializer's main account — and finally the in-program overflow-checked
credit of the record account's lamports to the initializer's main
account, after which the record's balance and data are zeroed. The first
transfer additionally fails inside the collaborator when the taker's Y
balance cannot cover the amount; for the second transfer the amount is
the source's whole balance, so no such case exists. -/
def process_exchange (pdaOf : Pubkey → Pubkey × Nat) (collabOk : CollabCall → Bool)
    (amount_expected_by_taker : Nat) (program_id : Pubkey) (s : ExchangeState) :
    Except ProgErr ExchangeState × List CollabCall :=
  if !s.takerMainIsSigner then (.error .missingRequiredSignature, [])
  else match TokenAccount.unpack s.pdaTempXData with
    | .error err => (.error err, [])
    | .ok pda_temp_x_info =>
      match Escrow.unpack s.escrowData with
      | .error err => (.error err, [])
      | .ok escrow_info =>
        if escrow_info.temp_token_account_pubkey ≠ s.pdaTempXKey then
          (.error .invalidAccountData, [])
        else if escrow_info.initializer_pubkey ≠ s.initializerMainKey then
          (.error .invalidAccountData, [])
        else if escrow_info.initializer_token_to_receive_account_pubkey ≠ s.initializerYKey then
          (.error .invalidAccountData, [])
        else
          let pda := (pdaOf program_id).1
          if amount_expected_by_taker ≠ pda_temp_x_info.amount then
            (.error .expectedAmountMismatch, [])
          else
            let transfer_to_initializer_ix := CollabCall.transfer s.takerYKey
              s.initializerYKey s.takerMainKey escrow_info.expected_amount
            if collabOk transfer_to_initializer_ix ∧
                escrow_info.expected_amount ≤ s.takerYBalance then
              let s1 := { s with
                takerYBalance := s.takerYBalance - escrow_info.expected_amount,
                initializerYBalance := s.initializerYBalance + escrow_info.expected_amount }
              let transfer_to_taker_ix := CollabCall.transfer s.pdaTempXKey s.takerXKey
                pda pda_temp_x_info.amount
              if collabOk transfer_to_taker_ix then
                let s2 := { s1 with
                  pdaTempXData := some (TokenAccount.mk 0),
                  takerXBalance := s1.takerXBalance + pda_temp_x_info.amount }
                let close_pdas_temp_acc_ix := CollabCall.closeAccount s.pdaTempXKey
                  s.initializerMainKey pda
                if collabOk close_pdas_temp_acc_ix then
                  let s3 := { s2 with
                    pdaTempXData := none,
                    pdaTempXLamports := 0,
                    initializerMainLamports :=
                      s2.initializerMainLamports + s.pdaTempXLamports }
                  if s3.initializerMainLamports + s.escrowLamports > u64Max then
                    (.error .amountOverflow,
                     [transfer_to_initializer_ix, transfer_to_taker_ix,
                      close_pdas_temp_acc_ix])
                  else
                    (.ok { s3 with
                      initializerMainLamports :=
                        s3.initializerMainLamports + s.escrowLamports,
                      escrowLamports := 0,
                      escrowData := .empty },
                     [transfer_to_initializer_ix, transfer_to_taker_ix,
                      close_pdas_temp_acc_ix])
                else (.error (.collabFailure close_pdas_temp_acc_ix),
                      [transfer_to_initializer_ix, transfer_to_taker_ix,
                       close_pdas_temp_acc_ix])
              else (.error (.collabFailure transfer_to_taker_ix),
                    [transfer_to_initializer_ix, transfer_to_taker_ix])
            else (.error (.collabFailure transfer_to_initializer_ix),
                  [transfer_to_initializer_ix])

/-- The account attributes read by process_cancel_escrow, in account-list
order: the initializer's main account (key, signer flag, lamports), the
temporary X token account (key, data, lamports), the initializer's X
token account (key, token balance, lamports — the close step credits the
temporary account's lamports here), and the escrow record account (data
and lamports). -/
structure CancelState where
  initializerMainKey : Pubkey
  initializerMainIsSigner : Bool
  initializerMainLamports : Nat
  tempXKey : Pubkey
  tempXData : Option TokenAccount
  tempXLamports : Nat
  initializerXKey : Pubkey
  initializerXBalance : Nat
  initializerXLamports : Nat
  escrowData : EscrowData
  escrowLamports : Nat
  deriving DecidableEq

/-- process_cancel_escrow (processor.rs lines 314-421), in source order:
unpack of the escrow record (initialized only); initializer-identity
check; signer check; temporary-account cross-check; unpack of the
temporary X token account; then two collaborator sub-calls — transfer of
the whole live temporary balance to the initializer's X token account
authorized by the derived address, and close of the temporary account
crediting its lamports to the initializer's X token account — and
finally the in-program overflow-checked credit of the record account's
lamports to the initializer's main account, after which the record's
balance and data are zeroed. -/
def process_cancel_escrow (pdaOf : Pubkey → Pubkey × Nat) (collabOk : CollabCall → Bool)
    (program_id : Pubkey) (s : CancelState) :
    Except ProgErr CancelState × List CollabCall :=
  match Escrow.unpack s.escrowData with
  | .error err => (.error err, [])
  | .ok escrow_info =>
    if escrow_info.initializer_pubkey ≠ s.initializerMainKey then
      (.error .invalidAccountData, [])
    else if !s.initializerMainIsSigner then (.error .missingRequiredSignature, [])
    else if escrow_info.temp_token_account_pubkey ≠ s.tempXKey then
      (.error .invalidAccountData, [])
    else
      let pda := (pdaOf program_id).1
      match TokenAccount.unpack s.tempXData with
      | .error err => (.error err, [])
      | .ok temp_x_info =>
        let transfer_x_tokens_back_ix := CollabCall.transfer s.tempXKey
          s.initializerXKey pda temp_x_info.amount
        if collabOk transfer_x_tokens_back_ix then
          let s1 := { s with
            tempXData := some (TokenAccount.mk 0),
            initializerXBalance := s.initializerXBalance + temp_x_info.amount }
          let close_temp_x_acc_ix := CollabCall.closeAccount s.tempXKey
            s.initializerXKey pda
          if collabOk close_temp_x_acc_ix then
            let s2 := { s1 with
              tempXData := none,
              tempXLamports := 0,
              initializerXLamports := s1.initializerXLamports + s.tempXLamports }
            if s2.initializerMainLamports + s.escrowLamports > u64Max then
              (.error .amountOverflow, [transfer_x_tokens_back_ix, close_temp_x_acc_ix])
            else
              (.ok { s2 with
                initializerMainLamports :=
                  s2.initializerMainLamports + s.escrowLamports,
                escrowLamports := 0,
                escrowData := .empty },
               [transfer_x_tokens_back_ix, close_temp_x_acc_ix])
          else (.error (.collabFailure close_temp_x_acc_ix),
                [transfer_x_tokens_back_ix, close_temp_x_acc_ix])
        else (.error (.collabFailure transfer_x_tokens_back_ix),
              [transfer_x_tokens_back_ix])

/-- Live token balance of the temporary X holding account in an exchange
state: the amount its token-account data decodes to, zero when the
account's data is gone (account closed). -/
def tempXBalance (s : ExchangeState) : Nat :=
  match s.pdaTempXData with
  | some t => t.amount
  | none => 0

/-- Total of the X asset over the two X-side token accounts involved in
an exchange: the temporary holding account and the taker's X account. -/
def xTotal (s : ExchangeState) : Nat := tempXBalance s + s.takerXBalance

/-- Total of the Y asset over the two Y-side token accounts involved in
an exchange: the taker's Y account and the initializer's Y account. -/
def yTotal (s : ExchangeState) : Nat := s.takerYBalance + s.initializerYBalance

/-- Helper: the escrow record data a successful Initialize leaves behind. -/
lemma init_ok_escrowData (pdaOf : Pubkey → Pubkey × Nat) (collabOk : CollabCall → Bool)
    (amount : Nat) (program_id : Pubkey) (s s' : InitState) (calls : List CollabCall)
    (h : process_init_escrow pdaOf collabOk amount program_id s = (.ok s', calls)) :
    s'.escrowData = EscrowData.wellFormed
      (Escrow.mk true s.initializerKey s.tempTokenKey s.tokenToReceiveKey amount) := by
  simp only [process_init_escrow] at h
  repeat' split at h
  all_goals first
    | (simp_all; done)
    | (obtain ⟨h1, -⟩ := Prod.mk.injEq .. ▸ h
       injection h1 with h2
       subst h2
       rfl)

/-- C1: every successful Initialize leaves in the escrow record account a
record with is_initialized = true whose four fields are exactly the
supplied initializer key, temporary holding account key, receiving
account key and amount argument. -/
theorem init_success_record (pdaOf : Pubkey → Pubkey × Nat) (collabOk : CollabCall → Bool)
    (amount : Nat) (program_id : Pubkey) (s s' : InitState) (calls : List CollabCall)
    (h : process_init_escrow pdaOf collabOk amount program_id s = (.ok s', calls)) :
    s'.escrowData = EscrowData.wellFormed
      (Escrow.mk true s.initializerKey s.tempTokenKey s.tokenToReceiveKey amount) :=
  init_ok_escrowData pdaOf collabOk amount program_id s s' calls h

/-- Witness for C1: a concrete successful Initialize, with the theorem
applied to read off the stored record. -/
theorem init_success_record_witness :
    (InitState.mk 10 true 11 1 none 12 1
        (EscrowData.wellFormed (Escrow.mk true 10 11 12 5)) true).escrowData
      = EscrowData.wellFormed (Escrow.mk true 10 11 12 5) :=
  init_success_record (fun _ => (42, 255)) (fun _ => true) 5 7
    (InitState.mk 10 true 11 1 none 12 1
      (EscrowData.wellFormed (Escrow.mk false 0 0 0 0)) true)
    (InitState.mk 10 true 11 1 none 12 1
      (EscrowData.wellFormed (Escrow.mk true 10 11 12 5)) true)
    [CollabCall.setAuthority 11 42 10] rfl

/-- C2: on a decodable record and with the collaborator accepting the
delegation sub-call, Initialize fails exactly when one of its four
preconditions is violated; each violated precondition yields its stated
error with no collaborator sub-call issued and no state returned (the
host discards all effects of a failing invocation); and a second
Initialize on an already-initialized record, in particular on the record
a successful Initialize leaves behind, fails with the
already-initialized error. -/
theorem init_preconditions (pdaOf : Pubkey → Pubkey × Nat) (collabOk : CollabCall → Bool)
    (amount : Nat) (program_id : Pubkey) (s : InitState) (e : Escrow)
    (hd : s.escrowData = EscrowData.wellFormed e)
    (hc : collabOk (CollabCall.setAuthority s.tempTokenKey (pdaOf program_id).1
      s.initializerKey) = true) :
    (isErr (process_init_escrow pdaOf collabOk amount program_id s).1 = true ↔
      (s.initializerIsSigner = false ∨ s.tokenToReceiveOwner ≠ spl_token_id ∨
       s.escrowIsRentExempt = false ∨ e.is_initialized = true))
    ∧ (s.initializerIsSigner = false →
        process_init_escrow pdaOf collabOk amount program_id s =
          (.error .missingRequiredSignature, []))
    ∧ (s.initializerIsSigner = true → s.tokenToReceiveOwner ≠ spl_token_id →
        process_init_escrow pdaOf collabOk amount program_id s =
          (.error .incorrectProgramId, []))
    ∧ (s.initializerIsSigner = true → s.tokenToReceiveOwner = spl_token_id →
        s.escrowIsRentExempt = false →
        process_init_escrow pdaOf collabOk amount program_id s =
          (.error .notRentExempt, []))
    ∧ (s.initializerIsSigner = true → s.tokenToReceiveOwner = spl_token_id →
        s.escrowIsRentExempt = true → e.is_initialized = true →
        process_init_escrow pdaOf collabOk amount program_id s =
          (.error .accountAlreadyInitialized, []))
    ∧ (∀ s' calls, process_init_escrow pdaOf collabOk amount program_id s = (.ok s', calls) →
        ∀ (pdaOf₂ : Pubkey → Pubkey × Nat) (collabOk₂ : CollabCall → Bool)
          (amount₂ program_id₂ : Nat) (s₂ : InitState),
          s₂.escrowData = s'.escrowData → s₂.initializerIsSigner = true →
          s₂.tokenToReceiveOwner = spl_token_id → s₂.escrowIsRentExempt = true →
          process_init_escrow pdaOf₂ collabOk₂ amount₂ program_id₂ s₂ =
            (.error .accountAlreadyInitialized, [])) := by
  refine ⟨?_, ?_, ?_, ?_, ?_, ?_⟩
  · cases hsig : s.initializerIsSigner <;>
      cases hrent : s.escrowIsRentExempt <;>
      cases hinit : e.is_initialized <;>
      by_cases hown : s.tokenToReceiveOwner = spl_token_id <;>
      simp_all [process_init_escrow, Escrow.unpack_unchecked, isErr]
  · intro h1
    simp [process_init_escrow, h1]
  · intro h1 h2
    simp [process_init_escrow, h1, h2]
  · intro h1 h2 h3
    simp [process_init_escrow, h1, h2, h3]
  · intro h1 h2 h3 h4
    simp [process_init_escrow, h1, h2, h3, hd, Escrow.unpack_unchecked, h4]
  · intro s' calls h pdaOf₂ collabOk₂ amount₂ program_id₂ s₂ hd₂ hsig₂ hown₂ hrent₂
    have hrec := init_ok_escrowData pdaOf collabOk amount program_id s s' calls h
    rw [hrec] at hd₂
    simp [process_init_escrow, hsig₂, hown₂, hrent₂, hd₂, Escrow.unpack_unchecked]

/-- Witness for C2: a concrete Initialize applying the theorem, reading
off that an already-initialized record is rejected with the
already-initialized error and an empty sub-call trace. -/
theorem init_preconditions_witness :
    process_init_escrow (fun _ => (42, 255)) (fun _ => true) 5 7
      (InitState.mk 10 true 11 1 none 12 1
        (EscrowData.wellFormed (Escrow.mk true 10 11 12 5)) true) =
      (.error .accountAlreadyInitialized, []) :=
  (init_preconditions (fun _ => (42, 255)) (fun _ => true) 5 7
    (InitState.mk 10 true 11 1 none 12 1
      (EscrowData.wellFormed (Escrow.mk true 10 11 12 5)) true)
    (Escrow.mk true 10 11 12 5) rfl rfl).2.2.2.2.1 rfl rfl rfl rfl

/-- Helper: complete characterization of a successful Exchange -- the
conditions it implies and the exact post-state and sub-call trace. -/
lemma exchange_ok_post (pdaOf : Pubkey → Pubkey × Nat) (collabOk : CollabCall → Bool)
    (declared : Nat) (pid : Pubkey) (s s' : ExchangeState) (calls : List CollabCall)
    (h : process_exchange pdaOf collabOk declared pid s = (.ok s', calls)) :
    ∃ info e, s.pdaTempXData = some info ∧ s.escrowData = EscrowData.wellFormed e ∧
      e.is_initialized = true ∧ s.takerMainIsSigner = true ∧
      e.temp_token_account_pubkey = s.pdaTempXKey ∧
      e.initializer_pubkey = s.initializerMainKey ∧
      e.initializer_token_to_receive_account_pubkey = s.initializerYKey ∧
      declared = info.amount ∧
      e.expected_amount ≤ s.takerYBalance ∧
      collabOk (CollabCall.transfer s.takerYKey s.initializerYKey s.takerMainKey
        e.expected_amount) = true ∧
      calls = [CollabCall.transfer s.takerYKey s.initializerYKey s.takerMainKey
                 e.expected_amount,
               CollabCall.transfer s.pdaTempXKey s.takerXKey (pdaOf pid).1 info.amount,
               CollabCall.closeAccount s.pdaTempXKey s.initializerMainKey (pdaOf pid).1] ∧
      s.initializerMainLamports + s.pdaTempXLamports + s.escrowLamports ≤ u64Max ∧
      s' = { s with
        takerYBalance := s.takerYBalance - e.expected_amount,
        initializerYBalance := s.initializerYBalance + e.expected_amount,
        takerXBalance := s.takerXBalance + info.amount,
        pdaTempXData := none,
        pdaTempXLamports := 0,
        initializerMainLamports :=
          s.initializerMainLamports + s.pdaTempXLamports + s.escrowLamports,
        escrowLamports := 0,
        escrowData := EscrowData.empty } := by
  simp only [process_exchange] at h
  repeat' split at h
  all_goals try (simp_all; done)
  obtain ⟨h1, hcalls⟩ := Prod.mk.injEq .. ▸ h
  injection h1 with h2
  subst h2
  rename_i hsig xu info hinfo xe erec herec hk1 hk2 hk3 hdecl hc1 hc2 hc3 hov
  have hsig' : s.takerMainIsSigner = true := by simpa using hsig
  simp only [ne_eq, not_not] at hk1 hk2 hk3 hdecl
  have hov' : s.initializerMainLamports + s.pdaTempXLamports + s.escrowLamports ≤ u64Max :=
    Nat.le_of_not_lt hov
  cases hd : s.pdaTempXData with
  | none => rw [hd] at hinfo; exact absurd hinfo (by simp [TokenAccount.unpack])
  | some t =>
    rw [hd] at hinfo
    obtain rfl : t = info := by simpa [TokenAccount.unpack] using hinfo
    cases he : s.escrowData with
    | empty => rw [he] at herec; exact absurd herec (by simp [Escrow.unpack, Escrow.unpack_unchecked])
    | malformed => rw [he] at herec; exact absurd herec (by simp [Escrow.unpack, Escrow.unpack_unchecked])
    | wellFormed e0 =>
      rw [he] at herec
      by_cases hei : e0.is_initialized = true
      · obtain rfl : e0 = erec := by
          simpa [Escrow.unpack, Escrow.unpack_unchecked, hei] using herec
        exact ⟨t, e0, rfl, rfl, hei, hsig', hk1, hk2, hk3, hdecl, hc1.2, hc1.1, hcalls.symm, hov', rfl⟩
      · exact absurd herec (by simp [Escrow.unpack, Escrow.unpack_unchecked, hei])

/-- Helper: complete characterization of a successful Cancel -- the
conditions it implies and the exact post-state and sub-call trace. -/
lemma cancel_ok_post (pdaOf : Pubkey → Pubkey × Nat) (collabOk : CollabCall → Bool)
    (pid : Pubkey) (s s' : CancelState) (calls : List CollabCall)
    (h : process_cancel_escrow pdaOf collabOk pid s = (.ok s', calls)) :
    ∃ info e, s.tempXData = some info ∧ s.escrowData = EscrowData.wellFormed e ∧
      e.is_initialized = true ∧
      e.initializer_pubkey = s.initializerMainKey ∧
      s.initializerMainIsSigner = true ∧
      e.temp_token_account_pubkey = s.tempXKey ∧
      collabOk (CollabCall.transfer s.tempXKey s.initializerXKey (pdaOf pid).1
        info.amount) = true ∧
      calls = [CollabCall.transfer s.tempXKey s.initializerXKey (pdaOf pid).1 info.amount,
               CollabCall.closeAccount s.tempXKey s.initializerXKey (pdaOf pid).1] ∧
      s.initializerMainLamports + s.escrowLamports ≤ u64Max ∧
      s' = { s with
        tempXData := none,
        tempXLamports := 0,
        initializerXBalance := s.initializerXBalance + info.amount,
        initializerXLamports := s.initializerXLamports + s.tempXLamports,
        initializerMainLamports := s.initializerMainLamports + s.escrowLamports,
        escrowLamports := 0,
        escrowData := EscrowData.empty } := by
  simp only [process_cancel_escrow] at h
  repeat' split at h
  all_goals try (simp_all; done)
  obtain ⟨h1, hcalls⟩ := Prod.mk.injEq .. ▸ h
  injection h1 with h2
  subst h2
  rename_i xe erec herec hk1 hsig hk2 xu info hinfo hc1 hc2 hov
  have hsig' : s.initializerMainIsSigner = true := by simpa using hsig
  simp only [ne_eq, not_not] at hk1 hk2
  have hov' : s.initializerMainLamports + s.escrowLamports ≤ u64Max :=
    Nat.le_of_not_lt hov
  cases hd : s.tempXData with
  | none => rw [hd] at hinfo; exact absurd hinfo (by simp [TokenAccount.unpack])
  | some t =>
    rw [hd] at hinfo
    obtain rfl : t = info := by simpa [TokenAccount.unpack] using hinfo
    cases he : s.escrowData with
    | empty => rw [he] at herec; exact absurd herec (by simp [Escrow.unpack, Escrow.unpack_unchecked])
    | malformed => rw [he] at herec; exact absurd herec (by simp [Escrow.unpack, Escrow.unpack_unchecked])
    | wellFormed e0 =>
      rw [he] at herec
      by_cases hei : e0.is_initialized = true
      · obtain rfl : e0 = erec := by
          simpa [Escrow.unpack, Escrow.unpack_unchecked, hei] using herec
        exact ⟨t, e0, rfl, rfl, hei, hk1, hsig', hk2, hc1, hcalls.symm, hov', rfl⟩
      · exact absurd herec (by simp [Escrow.unpack, Escrow.unpack_unchecked, hei])

/-- C3: once Exchange has a signing taker, a decodable temporary token
account and an initialized record, any mismatch of the three
cross-checked accounts against the record yields the invalid-account-data
error, and (all three matching) any nonzero difference between the live
temporary balance and the taker's declared expectation yields the
expected-amount-mismatch error; in both cases no collaborator sub-call is
attempted (empty trace) and no state is returned, so nothing is mutated. -/
theorem exchange_precondition_errors (pdaOf : Pubkey → Pubkey × Nat)
    (collabOk : CollabCall → Bool) (declared : Nat) (pid : Pubkey)
    (s : ExchangeState) (info : TokenAccount) (e : Escrow)
    (hsig : s.takerMainIsSigner = true)
    (htmp : s.pdaTempXData = some info)
    (hesc : s.escrowData = EscrowData.wellFormed e)
    (hinit : e.is_initialized = true) :
    ((e.temp_token_account_pubkey ≠ s.pdaTempXKey ∨
      e.initializer_pubkey ≠ s.initializerMainKey ∨
      e.initializer_token_to_receive_account_pubkey ≠ s.initializerYKey) →
      process_exchange pdaOf collabOk declared pid s = (.error .invalidAccountData, []))
    ∧ (e.temp_token_account_pubkey = s.pdaTempXKey →
       e.initializer_pubkey = s.initializerMainKey →
       e.initializer_token_to_receive_account_pubkey = s.initializerYKey →
       declared ≠ info.amount →
       process_exchange pdaOf collabOk declared pid s =
         (.error .expectedAmountMismatch, [])) := by
  constructor
  · intro hmis
    rcases hmis with hm | hm | hm <;>
      by_cases h1 : e.temp_token_account_pubkey = s.pdaTempXKey <;>
      by_cases h2 : e.initializer_pubkey = s.initializerMainKey <;>
      simp_all [process_exchange, TokenAccount.unpack, Escrow.unpack,
        Escrow.unpack_unchecked]
  · intro h1 h2 h3 h4
    simp [process_exchange, hsig, htmp, hesc, hinit, h1, h2, h3, h4,
      TokenAccount.unpack, Escrow.unpack, Escrow.unpack_unchecked]

/-- Witness for C3: a concrete Exchange whose record names a different
temporary holding account is rejected with invalid-account-data and an
empty sub-call trace. -/
theorem exchange_precondition_errors_witness :
    process_exchange (fun _ => (42, 255)) (fun _ => true) 100 7
      (ExchangeState.mk 20 true 21 50 22 0 11 (some (TokenAccount.mk 100)) 2 10 30 12 0
        (EscrowData.wellFormed (Escrow.mk true 10 99 12 50)) 3) =
      (.error .invalidAccountData, []) :=
  (exchange_precondition_errors (fun _ => (42, 255)) (fun _ => true) 100 7
    (ExchangeState.mk 20 true 21 50 22 0 11 (some (TokenAccount.mk 100)) 2 10 30 12 0
      (EscrowData.wellFormed (Escrow.mk true 10 99 12 50)) 3)
    (TokenAccount.mk 100) (Escrow.mk true 10 99 12 50) rfl rfl rfl rfl).1
    (Or.inl (by decide))

/-- C4 (amended): a successful Exchange performs its effects in strict
order, the first three each as a distinct collaborator sub-call that must
fully succeed before the next is attempted -- (1) transfer of the
record's expected_amount (not the taker's declared amount) from the
taker's Y account to the initializer's Y account signed by the taker,
(2) transfer of the whole live temporary balance to the taker's X
account authorized by the derived authority, (3) close of the temporary
account crediting its deposit to the initializer's main account -- while
the fourth effect, zeroing the escrow record and crediting its deposit
to the initializer's main account, is performed directly by the program
after the third sub-call succeeds, not as a collaborator sub-call. -/
theorem exchange_ordered_subcalls (pdaOf : Pubkey → Pubkey × Nat)
    (collabOk : CollabCall → Bool) (declared : Nat) (pid : Pubkey)
    (s : ExchangeState) (info : TokenAccount) (e : Escrow)
    (hsig : s.takerMainIsSigner = true)
    (htmp : s.pdaTempXData = some info)
    (hesc : s.escrowData = EscrowData.wellFormed e)
    (hinit : e.is_initialized = true)
    (hk1 : e.temp_token_account_pubkey = s.pdaTempXKey)
    (hk2 : e.initializer_pubkey = s.initializerMainKey)
    (hk3 : e.initializer_token_to_receive_account_pubkey = s.initializerYKey)
    (hamt : declared = info.amount) :
    (¬(collabOk (CollabCall.transfer s.takerYKey s.initializerYKey s.takerMainKey
         e.expected_amount) = true ∧ e.expected_amount ≤ s.takerYBalance) →
      process_exchange pdaOf collabOk declared pid s =
        (.error (.collabFailure (CollabCall.transfer s.takerYKey s.initializerYKey
           s.takerMainKey e.expected_amount)),
         [CollabCall.transfer s.takerYKey s.initializerYKey s.takerMainKey
            e.expected_amount]))
    ∧ (collabOk (CollabCall.transfer s.takerYKey s.initializerYKey s.takerMainKey
         e.expected_amount) = true → e.expected_amount ≤ s.takerYBalance →
       collabOk (CollabCall.transfer s.pdaTempXKey s.takerXKey (pdaOf pid).1
         info.amount) = false →
       process_exchange pdaOf collabOk declared pid s =
         (.error (.collabFailure (CollabCall.transfer s.pdaTempXKey s.takerXKey
            (pdaOf pid).1 info.amount)),
          [CollabCall.transfer s.takerYKey s.initializerYKey s.takerMainKey
             e.expected_amount,
           CollabCall.transfer s.pdaTempXKey s.takerXKey (pdaOf pid).1 info.amount]))
    ∧ (collabOk (CollabCall.transfer s.takerYKey s.initializerYKey s.takerMainKey
         e.expected_amount) = true → e.expected_amount ≤ s.takerYBalance →
       collabOk (CollabCall.transfer s.pdaTempXKey s.takerXKey (pdaOf pid).1
         info.amount) = true →
       collabOk (CollabCall.closeAccount s.pdaTempXKey s.initializerMainKey
         (pdaOf pid).1) = false →
       process_exchange pdaOf collabOk declared pid s =
         (.error (.collabFailure (CollabCall.closeAccount s.pdaTempXKey
            s.initializerMainKey (pdaOf pid).1)),
          [CollabCall.transfer s.takerYKey s.initializerYKey s.takerMainKey
             e.expected_amount,
           CollabCall.transfer s.pdaTempXKey s.takerXKey (pdaOf pid).1 info.amount,
           CollabCall.closeAccount s.pdaTempXKey s.initializerMainKey (pdaOf pid).1]))
    ∧ (∀ s' calls, process_exchange pdaOf collabOk declared pid s = (.ok s', calls) →
       calls = [CollabCall.transfer s.takerYKey s.initializerYKey s.takerMainKey
                  e.expected_amount,
                CollabCall.transfer s.pdaTempXKey s.takerXKey (pdaOf pid).1 info.amount,
                CollabCall.closeAccount s.pdaTempXKey s.initializerMainKey (pdaOf pid).1] ∧
       s'.escrowData = EscrowData.empty ∧ s'.escrowLamports = 0 ∧
       s'.initializerMainLamports =
         s.initializerMainLamports + s.pdaTempXLamports + s.escrowLamports) := by
  refine ⟨?_, ?_, ?_, ?_⟩
  · intro hfail
    simp [process_exchange, hsig, htmp, hesc, hinit, hk1, hk2, hk3, hamt, hfail,
      TokenAccount.unpack, Escrow.unpack, Escrow.unpack_unchecked]
  · intro hc1 hle hc2
    simp [process_exchange, hsig, htmp, hesc, hinit, hk1, hk2, hk3, hamt,
      hc1, hle, hc2, TokenAccount.unpack, Escrow.unpack, Escrow.unpack_unchecked]
  · intro hc1 hle hc2 hc3
    simp [process_exchange, hsig, htmp, hesc, hinit, hk1, hk2, hk3, hamt,
      hc1, hle, hc2, hc3, TokenAccount.unpack, Escrow.unpack, Escrow.unpack_unchecked]
  · intro s' calls h
    obtain ⟨info', e', htmp', hesc', -, -, -, -, -, -, -, -, hcalls, -, rfl⟩ :=
      exchange_ok_post pdaOf collabOk declared pid s s' calls h
    obtain rfl : info' = info := by rw [htmp] at htmp'; exact (Option.some_inj.mp htmp').symm
    obtain rfl : e' = e := by
      rw [hesc] at hesc'
      injection hesc'.symm
    exact ⟨hcalls, rfl, rfl, rfl⟩

/-- Counterexample for C4 as stated: a concrete successful Exchange whose
collaborator sub-call trace has exactly three elements, so its four
effects are not four distinct collaborator sub-calls (the fourth effect,
zeroing the record, is done by the program itself). -/
theorem exchange_not_four_subcalls :
    isErr (process_exchange (fun _ => (42, 255)) (fun _ => true) 100 7
      (ExchangeState.mk 20 true 21 50 22 0 11 (some (TokenAccount.mk 100)) 2 10 30 12 0
        (EscrowData.wellFormed (Escrow.mk true 10 11 12 50)) 3)).1 = false ∧
    (process_exchange (fun _ => (42, 255)) (fun _ => true) 100 7
      (ExchangeState.mk 20 true 21 50 22 0 11 (some (TokenAccount.mk 100)) 2 10 30 12 0
        (EscrowData.wellFormed (Escrow.mk true 10 11 12 50)) 3)).2.length = 3 :=
  ⟨rfl, rfl⟩

/-- Witness for C4's amended theorem: with a collaborator that rejects
exactly the second transfer, a concrete Exchange stops after attempting
the first two sub-calls and propagates the rejection. -/
theorem exchange_ordered_subcalls_witness :
    process_exchange (fun _ => (42, 255))
      (fun c => decide (c ≠ CollabCall.transfer 11 22 42 100)) 100 7
      (ExchangeState.mk 20 true 21 50 22 0 11 (some (TokenAccount.mk 100)) 2 10 30 12 0
        (EscrowData.wellFormed (Escrow.mk true 10 11 12 50)) 3) =
      (.error (.collabFailure (CollabCall.transfer 11 22 42 100)),
       [CollabCall.transfer 21 12 20 50, CollabCall.transfer 11 22 42 100]) :=
  (exchange_ordered_subcalls (fun _ => (42, 255))
    (fun c => decide (c ≠ CollabCall.transfer 11 22 42 100)) 100 7
    (ExchangeState.mk 20 true 21 50 22 0 11 (some (TokenAccount.mk 100)) 2 10 30 12 0
      (EscrowData.wellFormed (Escrow.mk true 10 11 12 50)) 3)
    (TokenAccount.mk 100) (Escrow.mk true 10 11 12 50)
    rfl rfl rfl rfl rfl rfl rfl rfl).2.1 (by decide) (by decide) (by decide)

/-- C5: every successful Exchange conserves the total of the X asset over
the temporary holding account and the taker's X account, and the total of
the Y asset over the taker's Y account and the initializer's Y account;
afterwards the temporary holding account is gone (data removed, lamports
zero) and the escrow record is gone (data emptied, lamports zero). -/
theorem exchange_conservation (pdaOf : Pubkey → Pubkey × Nat) (collabOk : CollabCall → Bool)
    (declared : Nat) (pid : Pubkey) (s s' : ExchangeState) (calls : List CollabCall)
    (h : process_exchange pdaOf collabOk declared pid s = (.ok s', calls)) :
    xTotal s' = xTotal s ∧ yTotal s' = yTotal s ∧
    s'.pdaTempXData = none ∧ s'.pdaTempXLamports = 0 ∧
    s'.escrowData = EscrowData.empty ∧ s'.escrowLamports = 0 := by
  obtain ⟨info, e, htmp, hesc, hinit, hsig, hk1, hk2, hk3, hamt, hle, hc1, hcalls, hov, rfl⟩ :=
    exchange_ok_post pdaOf collabOk declared pid s s' calls h
  refine ⟨?_, ?_, rfl, rfl, rfl, rfl⟩
  · simp only [xTotal, tempXBalance, htmp]
    omega
  · simp only [yTotal]
    omega

/-- Witness for C5: the theorem applied to a concrete successful
Exchange of 100 X for 50 Y. -/
theorem exchange_conservation_witness :
    xTotal (ExchangeState.mk 20 true 21 0 22 100 11 none 0 10 35 12 50
        EscrowData.empty 0) =
      xTotal (ExchangeState.mk 20 true 21 50 22 0 11 (some (TokenAccount.mk 100)) 2 10 30
        12 0 (EscrowData.wellFormed (Escrow.mk true 10 11 12 50)) 3) ∧
    yTotal (ExchangeState.mk 20 true 21 0 22 100 11 none 0 10 35 12 50
        EscrowData.empty 0) =
      yTotal (ExchangeState.mk 20 true 21 50 22 0 11 (some (TokenAccount.mk 100)) 2 10 30
        12 0 (EscrowData.wellFormed (Escrow.mk true 10 11 12 50)) 3) ∧
    (ExchangeState.mk 20 true 21 0 22 100 11 none 0 10 35 12 50
        EscrowData.empty 0).pdaTempXData = none ∧
    (ExchangeState.mk 20 true 21 0 22 100 11 none 0 10 35 12 50
        EscrowData.empty 0).pdaTempXLamports = 0 ∧
    (ExchangeState.mk 20 true 21 0 22 100 11 none 0 10 35 12 50
        EscrowData.empty 0).escrowData = EscrowData.empty ∧
    (ExchangeState.mk 20 true 21 0 22 100 11 none 0 10 35 12 50
        EscrowData.empty 0).escrowLamports = 0 :=
  exchange_conservation (fun _ => (42, 255)) (fun _ => true) 100 7
    (ExchangeState.mk 20 true 21 50 22 0 11 (some (TokenAccount.mk 100)) 2 10 30 12 0
      (EscrowData.wellFormed (Escrow.mk true 10 11 12 50)) 3)
    (ExchangeState.mk 20 true 21 0 22 100 11 none 0 10 35 12 50
      EscrowData.empty 0)
    [CollabCall.transfer 21 12 20 50, CollabCall.transfer 11 22 42 100,
     CollabCall.closeAccount 11 10 42] rfl

/-- C6: the credit of the escrow record's reclaimed deposit to the
initializer's main account is overflow-checked in both Exchange and
Cancel: when the incoming balance plus the record's lamports exceeds the
64-bit range the handler fails with the amount-overflow error (after the
collaborator sub-calls, whose effects the host then discards), and on
success the credited balance is the exact arithmetic sum, within the
64-bit range -- never a wrapped value. -/
theorem credit_overflow_checked :
    (∀ (pdaOf : Pubkey → Pubkey × Nat) (collabOk : CollabCall → Bool)
       (declared : Nat) (pid : Pubkey) (s s' : ExchangeState) (calls : List CollabCall),
       process_exchange pdaOf collabOk declared pid s = (.ok s', calls) →
       s'.initializerMainLamports =
         s.initializerMainLamports + s.pdaTempXLamports + s.escrowLamports ∧
       s'.initializerMainLamports ≤ u64Max)
    ∧ (∀ (pdaOf : Pubkey → Pubkey × Nat) (collabOk : CollabCall → Bool)
       (declared : Nat) (pid : Pubkey) (s : ExchangeState) (info : TokenAccount)
       (e : Escrow),
       s.takerMainIsSigner = true → s.pdaTempXData = some info →
       s.escrowData = EscrowData.wellFormed e → e.is_initialized = true →
       e.temp_token_account_pubkey = s.pdaTempXKey →
       e.initializer_pubkey = s.initializerMainKey →
       e.initializer_token_to_receive_account_pubkey = s.initializerYKey →
       declared = info.amount →
       collabOk (CollabCall.transfer s.takerYKey s.initializerYKey s.takerMainKey
         e.expected_amount) = true →
       e.expected_amount ≤ s.takerYBalance →
       collabOk (CollabCall.transfer s.pdaTempXKey s.takerXKey (pdaOf pid).1
         info.amount) = true →
       collabOk (CollabCall.closeAccount s.pdaTempXKey s.initializerMainKey
         (pdaOf pid).1) = true →
       s.initializerMainLamports + s.pdaTempXLamports + s.escrowLamports > u64Max →
       (process_exchange pdaOf collabOk declared pid s).1 = .error .amountOverflow)
    ∧ (∀ (pdaOf : Pubkey → Pubkey × Nat) (collabOk : CollabCall → Bool)
       (pid : Pubkey) (s s' : CancelState) (calls : List CollabCall),
       process_cancel_escrow pdaOf collabOk pid s = (.ok s', calls) →
       s'.initializerMainLamports = s.initializerMainLamports + s.escrowLamports ∧
       s'.initializerMainLamports ≤ u64Max)
    ∧ (∀ (pdaOf : Pubkey → Pubkey × Nat) (collabOk : CollabCall → Bool)
       (pid : Pubkey) (s : CancelState) (info : TokenAccount) (e : Escrow),
       s.escrowData = EscrowData.wellFormed e → e.is_initialized = true →
       e.initializer_pubkey = s.initializerMainKey →
       s.initializerMainIsSigner = true →
       e.temp_token_account_pubkey = s.tempXKey →
       s.tempXData = some info →
       collabOk (CollabCall.transfer s.tempXKey s.initializerXKey (pdaOf pid).1
         info.amount) = true →
       collabOk (CollabCall.closeAccount s.tempXKey s.initializerXKey
         (pdaOf pid).1) = true →
       s.initializerMainLamports + s.escrowLamports > u64Max →
       (process_cancel_escrow pdaOf collabOk pid s).1 = .error .amountOverflow) := by
  refine ⟨?_, ?_, ?_, ?_⟩
  · intro pdaOf collabOk declared pid s s' calls h
    obtain ⟨info, e, -, -, -, -, -, -, -, -, -, -, -, hov, rfl⟩ :=
      exchange_ok_post pdaOf collabOk declared pid s s' calls h
    exact ⟨rfl, hov⟩
  · intro pdaOf collabOk declared pid s info e hsig htmp hesc hinit hk1 hk2 hk3 hamt
      hc1 hle hc2 hc3 hov
    simp [process_exchange, hsig, htmp, hesc, hinit, hk1, hk2, hk3, hamt,
      hc1, hle, hc2, hc3, hov, TokenAccount.unpack, Escrow.unpack,
      Escrow.unpack_unchecked]
  · intro pdaOf collabOk pid s s' calls h
    obtain ⟨info, e, -, -, -, -, -, -, -, -, hov, rfl⟩ :=
      cancel_ok_post pdaOf collabOk pid s s' calls h
    exact ⟨rfl, hov⟩
  · intro pdaOf collabOk pid s info e hesc hinit hk1 hsig hk2 htmp hc1 hc2 hov
    simp [process_cancel_escrow, hesc, hinit, hk1, hsig, hk2, htmp, hc1, hc2, hov,
      TokenAccount.unpack, Escrow.unpack, Escrow.unpack_unchecked]

/-- Witness for C6: a concrete Cancel whose record-deposit credit would
exceed the 64-bit range fails with the amount-overflow error. -/
theorem credit_overflow_checked_witness :
    (process_cancel_escrow (fun _ => (42, 255)) (fun _ => true) 7
      (CancelState.mk 10 true (2 ^ 64 - 1) 11 (some (TokenAccount.mk 100)) 2 13 0 4
        (EscrowData.wellFormed (Escrow.mk true 10 11 12 50)) 3)).1 =
      .error .amountOverflow :=
  credit_overflow_checked.2.2.2 (fun _ => (42, 255)) (fun _ => true) 7
    (CancelState.mk 10 true (2 ^ 64 - 1) 11 (some (TokenAccount.mk 100)) 2 13 0 4
      (EscrowData.wellFormed (Escrow.mk true 10 11 12 50)) 3)
    (TokenAccount.mk 100) (Escrow.mk true 10 11 12 50)
    rfl rfl rfl rfl rfl rfl rfl rfl (by decide)

/-- C7: on an initialized record, Cancel rejects a caller whose key
differs from the record's initializer identity with the identity-mismatch
error (surfaced as invalid-account-data), rejects a matching but
non-signing caller with the missing-signature error, and rejects a
mismatched temporary holding account with invalid-account-data -- in each
case with an empty sub-call trace and no returned state, so nothing is
mutated -- and it succeeds only when the caller matches the record, signs,
and supplies the recorded temporary holding account. -/
theorem cancel_preconditions (pdaOf : Pubkey → Pubkey × Nat) (collabOk : CollabCall → Bool)
    (pid : Pubkey) (s : CancelState) (e : Escrow)
    (hesc : s.escrowData = EscrowData.wellFormed e)
    (hinit : e.is_initialized = true) :
    (e.initializer_pubkey ≠ s.initializerMainKey →
      process_cancel_escrow pdaOf collabOk pid s = (.error .invalidAccountData, []))
    ∧ (e.initializer_pubkey = s.initializerMainKey →
       s.initializerMainIsSigner = false →
       process_cancel_escrow pdaOf collabOk pid s =
         (.error .missingRequiredSignature, []))
    ∧ (e.initializer_pubkey = s.initializerMainKey →
       s.initializerMainIsSigner = true →
       e.temp_token_account_pubkey ≠ s.tempXKey →
       process_cancel_escrow pdaOf collabOk pid s = (.error .invalidAccountData, []))
    ∧ (∀ s' calls, process_cancel_escrow pdaOf collabOk pid s = (.ok s', calls) →
       e.initializer_pubkey = s.initializerMainKey ∧
       s.initializerMainIsSigner = true ∧
       e.temp_token_account_pubkey = s.tempXKey) := by
  refine ⟨?_, ?_, ?_, ?_⟩
  · intro hne
    simp [process_cancel_escrow, hesc, hinit, hne, Escrow.unpack,
      Escrow.unpack_unchecked]
  · intro hk hns
    simp [process_cancel_escrow, hesc, hinit, hk, hns, Escrow.unpack,
      Escrow.unpack_unchecked]
  · intro hk hs hnt
    simp [process_cancel_escrow, hesc, hinit, hk, hs, hnt, Escrow.unpack,
      Escrow.unpack_unchecked]
  · intro s' calls h
    obtain ⟨info, e', -, hesc', -, hk1, hs, hk2, -, -, -, -⟩ :=
      cancel_ok_post pdaOf collabOk pid s s' calls h
    obtain rfl : e' = e := by
      rw [hesc] at hesc'
      injection hesc'.symm
    exact ⟨hk1, hs, hk2⟩

/-- Witness for C7: a concrete Cancel invoked by a key different from the
record's initializer identity is rejected with invalid-account-data. -/
theorem cancel_preconditions_witness :
    process_cancel_escrow (fun _ => (42, 255)) (fun _ => true) 7
      (CancelState.mk 77 true 30 11 (some (TokenAccount.mk 100)) 2 13 0 4
        (EscrowData.wellFormed (Escrow.mk true 10 11 12 50)) 3) =
      (.error .invalidAccountData, []) :=
  (cancel_preconditions (fun _ => (42, 255)) (fun _ => true) 7
    (CancelState.mk 77 true 30 11 (some (TokenAccount.mk 100)) 2 13 0 4
      (EscrowData.wellFormed (Escrow.mk true 10 11 12 50)) 3)
    (Escrow.mk true 10 11 12 50) rfl rfl).1 (by decide)

/-- C8: a successful Cancel transfers the whole live balance of the
temporary holding account to the initializer's X token account authorized
by the derived authority, closes the temporary account crediting its
reclaimed deposit to that same account of the offering party, and zeroes
the escrow record crediting its deposit to the offering party's main
account; afterwards no temporary account and no record state remain. -/
theorem cancel_success_effects (pdaOf : Pubkey → Pubkey × Nat) (collabOk : CollabCall → Bool)
    (pid : Pubkey) (s s' : CancelState) (calls : List CollabCall)
    (h : process_cancel_escrow pdaOf collabOk pid s = (.ok s', calls)) :
    ∃ info, s.tempXData = some info ∧
      calls = [CollabCall.transfer s.tempXKey s.initializerXKey (pdaOf pid).1 info.amount,
               CollabCall.closeAccount s.tempXKey s.initializerXKey (pdaOf pid).1] ∧
      s'.initializerXBalance = s.initializerXBalance + info.amount ∧
      s'.initializerXLamports = s.initializerXLamports + s.tempXLamports ∧
      s'.initializerMainLamports = s.initializerMainLamports + s.escrowLamports ∧
      s'.tempXData = none ∧ s'.tempXLamports = 0 ∧
      s'.escrowData = EscrowData.empty ∧ s'.escrowLamports = 0 := by
  obtain ⟨info, e, htmp, -, -, -, -, -, -, hcalls, -, rfl⟩ :=
    cancel_ok_post pdaOf collabOk pid s s' calls h
  exact ⟨info, htmp, hcalls, rfl, rfl, rfl, rfl, rfl, rfl, rfl⟩

/-- Witness for C8: the theorem applied to a concrete successful Cancel
returning 100 locked X units and both deposits to the offering party. -/
theorem cancel_success_effects_witness :
    ∃ info, (CancelState.mk 10 true 30 11 (some (TokenAccount.mk 100)) 2 13 0 4
        (EscrowData.wellFormed (Escrow.mk true 10 11 12 50)) 3).tempXData = some info ∧
      [CollabCall.transfer 11 13 42 100, CollabCall.closeAccount 11 13 42] =
        [CollabCall.transfer 11 13 42 info.amount, CollabCall.closeAccount 11 13 42] ∧
      (CancelState.mk 10 true 33 11 none 0 13 100 6 EscrowData.empty
          0).initializerXBalance = 0 + info.amount ∧
      (CancelState.mk 10 true 33 11 none 0 13 100 6 EscrowData.empty
          0).initializerXLamports = 4 + 2 ∧
      (CancelState.mk 10 true 33 11 none 0 13 100 6 EscrowData.empty
          0).initializerMainLamports = 30 + 3 ∧
      (CancelState.mk 10 true 33 11 none 0 13 100 6 EscrowData.empty
          0).tempXData = none ∧
      (CancelState.mk 10 true 33 11 none 0 13 100 6 EscrowData.empty
          0).tempXLamports = 0 ∧
      (CancelState.mk 10 true 33 11 none 0 13 100 6 EscrowData.empty
          0).escrowData = EscrowData.empty ∧
      (CancelState.mk 10 true 33 11 none 0 13 100 6 EscrowData.empty
          0).escrowLamports = 0 :=
  cancel_success_effects (fun _ => (42, 255)) (fun _ => true) 7
    (CancelState.mk 10 true 30 11 (some (TokenAccount.mk 100)) 2 13 0 4
      (EscrowData.wellFormed (Escrow.mk true 10 11 12 50)) 3)
    (CancelState.mk 10 true 33 11 none 0 13 100 6 EscrowData.empty 0)
    [CollabCall.transfer 11 13 42 100, CollabCall.closeAccount 11 13 42] rfl

/-- C9: a successful Exchange or Cancel leaves the escrow record account
with emptied data, and on an escrow record account whose data is empty
every Exchange and every Cancel fails -- the emptied record no longer
decodes as an initialized escrow -- with an empty sub-call trace, so a
consumed record is never actionable again. -/
theorem consumed_record_not_actionable :
    (∀ (pdaOf : Pubkey → Pubkey × Nat) (collabOk : CollabCall → Bool)
       (declared : Nat) (pid : Pubkey) (s s' : ExchangeState) (calls : List CollabCall),
       process_exchange pdaOf collabOk declared pid s = (.ok s', calls) →
       s'.escrowData = EscrowData.empty)
    ∧ (∀ (pdaOf : Pubkey → Pubkey × Nat) (collabOk : CollabCall → Bool)
       (pid : Pubkey) (s s' : CancelState) (calls : List CollabCall),
       process_cancel_escrow pdaOf collabOk pid s = (.ok s', calls) →
       s'.escrowData = EscrowData.empty)
    ∧ (∀ (pdaOf : Pubkey → Pubkey × Nat) (collabOk : CollabCall → Bool)
       (declared : Nat) (pid : Pubkey) (s : ExchangeState),
       s.escrowData = EscrowData.empty →
       isErr (process_exchange pdaOf collabOk declared pid s).1 = true ∧
       (process_exchange pdaOf collabOk declared pid s).2 = [])
    ∧ (∀ (pdaOf : Pubkey → Pubkey × Nat) (collabOk : CollabCall → Bool)
       (pid : Pubkey) (s : CancelState),
       s.escrowData = EscrowData.empty →
       isErr (process_cancel_escrow pdaOf collabOk pid s).1 = true ∧
       (process_cancel_escrow pdaOf collabOk pid s).2 = []) := by
  refine ⟨?_, ?_, ?_, ?_⟩
  · intro pdaOf collabOk declared pid s s' calls h
    obtain ⟨info, e, -, -, -, -, -, -, -, -, -, -, -, -, rfl⟩ :=
      exchange_ok_post pdaOf collabOk declared pid s s' calls h
    rfl
  · intro pdaOf collabOk pid s s' calls h
    obtain ⟨info, e, -, -, -, -, -, -, -, -, -, rfl⟩ :=
      cancel_ok_post pdaOf collabOk pid s s' calls h
    rfl
  · intro pdaOf collabOk declared pid s hed
    cases hsig : s.takerMainIsSigner <;>
      cases htmp : s.pdaTempXData <;>
        simp [process_exchange, hsig, htmp, hed, isErr, TokenAccount.unpack,
          Escrow.unpack, Escrow.unpack_unchecked]
  · intro pdaOf collabOk pid s hed
    simp [process_cancel_escrow, hed, isErr, Escrow.unpack, Escrow.unpack_unchecked]

/-- Witness for C9: on a concrete state whose record data is empty, both
Exchange and Cancel fail with no sub-call attempted. -/
theorem consumed_record_not_actionable_witness :
    (isErr (process_exchange (fun _ => (42, 255)) (fun _ => true) 100 7
      (ExchangeState.mk 20 true 21 50 22 0 11 (some (TokenAccount.mk 100)) 2 10 30 12 0
        EscrowData.empty 3)).1 = true ∧
     (process_exchange (fun _ => (42, 255)) (fun _ => true) 100 7
      (ExchangeState.mk 20 true 21 50 22 0 11 (some (TokenAccount.mk 100)) 2 10 30 12 0
        EscrowData.empty 3)).2 = []) ∧
    (isErr (process_cancel_escrow (fun _ => (42, 255)) (fun _ => true) 7
      (CancelState.mk 10 true 30 11 (some (TokenAccount.mk 100)) 2 13 0 4
        EscrowData.empty 3)).1 = true ∧
     (process_cancel_escrow (fun _ => (42, 255)) (fun _ => true) 7
      (CancelState.mk 10 true 30 11 (some (TokenAccount.mk 100)) 2 13 0 4
        EscrowData.empty 3)).2 = []) :=
  ⟨consumed_record_not_actionable.2.2.1 (fun _ => (42, 255)) (fun _ => true) 100 7
    (ExchangeState.mk 20 true 21 50 22 0 11 (some (TokenAccount.mk 100)) 2 10 30 12 0
      EscrowData.empty 3) rfl,
   consumed_record_not_actionable.2.2.2 (fun _ => (42, 255)) (fun _ => true) 7
    (CancelState.mk 10 true 30 11 (some (TokenAccount.mk 100)) 2 13 0 4
      EscrowData.empty 3) rfl⟩

/-- The error a handler run produced, if any. -/
def resultErr (r : Except ProgErr α × List CollabCall) : Option ProgErr :=
  match r.1 with
  | .error err => some err
  | .ok _ => none

/-- C10: Initialize performs no validation of the temporary holding
account: its error behavior and its sub-call trace are unchanged under
any replacement of that account's data and owning program (the only
ownership check is on the receiving account), and when all of its own
checks pass its only possible failure is the collaborator's rejection of
the authority-delegation sub-call, propagated verbatim. -/
theorem init_no_temp_validation :
    (∀ (pdaOf : Pubkey → Pubkey × Nat) (collabOk : CollabCall → Bool)
       (amount : Nat) (program_id : Pubkey) (s : InitState)
       (d : Option TokenAccount) (o : Pubkey),
       resultErr (process_init_escrow pdaOf collabOk amount program_id
           { s with tempTokenData := d, tempTokenOwner := o }) =
         resultErr (process_init_escrow pdaOf collabOk amount program_id s) ∧
       (process_init_escrow pdaOf collabOk amount program_id
           { s with tempTokenData := d, tempTokenOwner := o }).2 =
         (process_init_escrow pdaOf collabOk amount program_id s).2)
    ∧ (∀ (pdaOf : Pubkey → Pubkey × Nat) (collabOk : CollabCall → Bool)
       (amount : Nat) (program_id : Pubkey) (s : InitState) (e : Escrow),
       s.initializerIsSigner = true → s.tokenToReceiveOwner = spl_token_id →
       s.escrowIsRentExempt = true →
       s.escrowData = EscrowData.wellFormed e → e.is_initialized = false →
       collabOk (CollabCall.setAuthority s.tempTokenKey (pdaOf program_id).1
         s.initializerKey) = false →
       process_init_escrow pdaOf collabOk amount program_id s =
         (.error (.collabFailure (CollabCall.setAuthority s.tempTokenKey
            (pdaOf program_id).1 s.initializerKey)),
          [CollabCall.setAuthority s.tempTokenKey (pdaOf program_id).1
             s.initializerKey])) := by
  constructor
  · intro pdaOf collabOk amount program_id s d o
    cases hsig : s.initializerIsSigner with
    | false => simp [process_init_escrow, hsig, resultErr]
    | true =>
      by_cases hown : s.tokenToReceiveOwner = spl_token_id
      · cases hrent : s.escrowIsRentExempt with
        | false => simp [process_init_escrow, hsig, hown, hrent, resultErr]
        | true =>
          cases hesc : s.escrowData with
          | empty =>
            simp [process_init_escrow, hsig, hown, hrent, hesc, resultErr,
              Escrow.unpack_unchecked]
          | malformed =>
            simp [process_init_escrow, hsig, hown, hrent, hesc, resultErr,
              Escrow.unpack_unchecked]
          | wellFormed e =>
            cases hini : e.is_initialized with
            | true =>
              simp [process_init_escrow, hsig, hown, hrent, hesc, hini, resultErr,
                Escrow.unpack_unchecked]
            | false =>
              by_cases hcb : collabOk (CollabCall.setAuthority s.tempTokenKey
                  (pdaOf program_id).1 s.initializerKey) = true
              · simp [process_init_escrow, hsig, hown, hrent, hesc, hini, hcb,
                  resultErr, Escrow.unpack_unchecked]
              · simp [process_init_escrow, hsig, hown, hrent, hesc, hini, hcb,
                  resultErr, Escrow.unpack_unchecked]
      · simp [process_init_escrow, hsig, hown, resultErr]
  · intro pdaOf collabOk amount program_id s e hsig hown hrent hesc hini hcb
    simp [process_init_escrow, hsig, hown, hrent, hesc, hini, hcb,
      Escrow.unpack_unchecked]

/-- Witness for C10: a concrete Initialize whose temporary account data
and owner are garbage raises no error of its own; with a collaborator
rejecting the delegation, the rejection is what is propagated. -/
theorem init_no_temp_validation_witness :
    process_init_escrow (fun _ => (42, 255)) (fun _ => false) 5 7
      (InitState.mk 10 true 11 99 (some (TokenAccount.mk 3)) 12 1
        (EscrowData.wellFormed (Escrow.mk false 0 0 0 0)) true) =
      (.error (.collabFailure (CollabCall.setAuthority 11 42 10)),
       [CollabCall.setAuthority 11 42 10]) :=
  init_no_temp_validation.2 (fun _ => (42, 255)) (fun _ => false) 5 7
    (InitState.mk 10 true 11 99 (some (TokenAccount.mk 3)) 12 1
      (EscrowData.wellFormed (Escrow.mk false 0 0 0 0)) true)
    (Escrow.mk false 0 0 0 0) rfl rfl rfl rfl rfl rfl
